import Mathlib
/-!
Verification of the flight-booking system seat-inventory controller and
booking workflow state machine.

The Go source is shallowly embedded:
- the in-memory activity inventory (temporal-worker activities: ReserveSeats,
  ReleaseSeats, ConfirmBooking, ValidatePayment) becomes pure functions over a
  `SeatInventory` record whose Go maps are modelled as `String -> Option _`
  functions;
- the Temporal `BookingWorkflow` signal loop becomes a step function over a
  `WorkflowEnv` processing a list of timestamped signals, one loop iteration
  per signal, exactly in the order the Go selector processes them;
- the api-server repository layer (SQL statements of `Repository.HoldSeats`,
  `Repository.ReleaseSeats`, `Repository.UpdateOrderStatus`) and
  `BookingService.CancelOrder` become pure functions over a `Database` record.

Timestamps are abstract integers (Go `time.Time` instants), with `0` standing
for the Go zero time; durations use seconds, so the 15-minute hold is `900`.
Monetary amounts (Go `float64` prices) are abstracted as integers: no claim
depends on floating-point behaviour, only on sums being preserved or unchanged.
The simulated 15% random payment failure of `ValidatePayment` is replaced by an
explicit `providerOk` oracle argument.
-/
/-- Pointwise update of a Go map modelled as a function. -/
def setMap {α : Type} (m : String → Option α) (k : String) (v : α) :
    String → Option α :=
  fun x => if x = k then some v else m x
/-- Pointwise deletion from a Go map modelled as a function. -/
def delMap {α : Type} (m : String → Option α) (k : String) :
    String → Option α :=
  fun x => if x = k then none else m x
/-- Seat status values (shared/models seat.go: available, held, booked). -/
inductive SeatStatus where
  | available
  | held
  | booked
deriving DecidableEq, Repr
/-- Seat class values (economy, business, first). -/
inductive SeatClass where
  | economy
  | business
  | first
deriving DecidableEq, Repr
/-- The `models.Seat` record. `price` abstracts the Go float64. -/
structure Seat where
  id : String
  flightID : String
  row : Nat
  column : String
  cls : SeatClass
  status : SeatStatus
  price : Int
deriving DecidableEq, Repr
/-- The activity `SeatInventory`: Go maps `seats`, `holds` (seatID to orderID)
and `expiry` (seatID to expiry instant), modelled as functions. -/
structure SeatInventory where
  seats : String → Option Seat
  holds : String → Option String
  expiry : String → Option Int
/-- The activities constant `SeatHoldDuration = 15 * time.Minute`, in seconds. -/
def SeatHoldDuration : Int := 15 * 60
/-- The `models.ReserveSeatsResult` record, fields as used by the code. -/
structure ReserveSeatsResult where
  success : Bool
  error : String
  seatIDs : List String
  totalAmount : Int
  holdExpiry : Int
deriving DecidableEq, Repr
/-- The `models.ConfirmBookingResult` record, fields as used by the code. -/
structure ConfirmBookingResult where
  success : Bool
  error : String
  confirmationCode : String
deriving DecidableEq, Repr
/-- The `models.ValidatePaymentResult` record, fields as used by the code. -/
structure ValidatePaymentResult where
  success : Bool
  error : String
  canRetry : Bool
deriving DecidableEq, Repr
/-- Check phase of the activity `ReserveSeats` (the first loop over `seatIDs`):
a missing seat or an unavailable seat aborts with the Go error message; a seat
held by the same order is skipped (refresh, price not re-counted, matching the
Go `continue`); a seat whose hold expiry has passed (`time.Now().After(expiry)`)
is lazily transitioned back to available and its hold entries deleted before
its price is counted. Returns the possibly mutated inventory together with the
accumulated total or the error message. -/
def reserveCheck (orderID : String) (now : Int) :
    SeatInventory → List String → Int → SeatInventory × Except String Int
  | inv, [], total => (inv, Except.ok total)
  | inv, seatID :: rest, total =>
    match inv.seats seatID with
    | none => (inv, Except.error ("Seat " ++ seatID ++ " not found"))
    | some seat =>
      if seat.status = SeatStatus.available then
        reserveCheck orderID now inv rest (total + seat.price)
      else if inv.holds seatID = some orderID then
        reserveCheck orderID now inv rest total
      else
        match inv.expiry seatID with
        | some expiryTime =>
          if expiryTime < now then
            reserveCheck orderID now
              { inv with
                seats := setMap inv.seats seatID
                  { seat with status := SeatStatus.available },
                holds := delMap inv.holds seatID,
                expiry := delMap inv.expiry seatID }
              rest (total + seat.price)
          else (inv, Except.error ("Seat " ++ seatID ++ " is not available"))
        | none => (inv, Except.error ("Seat " ++ seatID ++ " is not available"))
/-- Reservation phase of the activity `ReserveSeats` (the second loop): marks
every requested seat held by `orderID` with the common `holdExpiry`. The Go
code indexes the map without an existence check (a missing seat would be a nil
dereference); after a successful check phase every requested seat exists, and a
missing seat is skipped here to keep the function total. -/
def holdSeatsAll (orderID : String) (holdExpiry : Int) :
    SeatInventory → List String → SeatInventory
  | inv, [] => inv
  | inv, seatID :: rest =>
    match inv.seats seatID with
    | none => holdSeatsAll orderID holdExpiry inv rest
    | some seat =>
      holdSeatsAll orderID holdExpiry
        { inv with
          seats := setMap inv.seats seatID { seat with status := SeatStatus.held },
          holds := setMap inv.holds seatID orderID,
          expiry := setMap inv.expiry seatID holdExpiry }
        rest
/-- The activity `ReserveSeats`: check all requested seats, then reserve them
all with `holdExpiry = now + SeatHoldDuration`. A failed check returns the
unsuccessful result together with the inventory as mutated so far (the lock is
released with lazily expired seats already cleared). The `flightID` argument
is only logged by the Go code. -/
def ReserveSeats (inv : SeatInventory) (orderID flightID : String)
    (seatIDs : List String) (now : Int) : SeatInventory × ReserveSeatsResult :=
  match reserveCheck orderID now inv seatIDs 0 with
  | (inv1, Except.error e) =>
    (inv1, { success := false, error := e, seatIDs := [], totalAmount := 0,
             holdExpiry := 0 })
  | (inv1, Except.ok total) =>
    let holdExpiry := now + SeatHoldDuration
    (holdSeatsAll orderID holdExpiry inv1 seatIDs,
     { success := true, error := "", seatIDs := seatIDs, totalAmount := total,
       holdExpiry := holdExpiry })
/-- The activity `ReleaseSeats`: for each requested seat that exists and is
held by `orderID`, set it available and delete its hold entries; all other
seats are untouched. -/
def ReleaseSeats (orderID : String) :
    SeatInventory → List String → SeatInventory
  | inv, [] => inv
  | inv, seatID :: rest =>
    match inv.seats seatID with
    | none => ReleaseSeats orderID inv rest
    | some seat =>
      if inv.holds seatID = some orderID then
        ReleaseSeats orderID
          { inv with
            seats := setMap inv.seats seatID
              { seat with status := SeatStatus.available },
            holds := delMap inv.holds seatID,
            expiry := delMap inv.expiry seatID }
          rest
      else ReleaseSeats orderID inv rest
/-- Loop of the activity `ConfirmBooking`: each requested seat is checked for
existence and for being held by `orderID`, and is immediately marked booked
with its hold entries deleted; a failing seat aborts with the Go error message,
keeping the mutations already applied to earlier seats. -/
def confirmLoop (orderID : String) :
    SeatInventory → List String → SeatInventory × Except String Unit
  | inv, [] => (inv, Except.ok ())
  | inv, seatID :: rest =>
    match inv.seats seatID with
    | none => (inv, Except.error ("Seat " ++ seatID ++ " not found"))
    | some seat =>
      if inv.holds seatID = some orderID then
        confirmLoop orderID
          { inv with
            seats := setMap inv.seats seatID
              { seat with status := SeatStatus.booked },
            holds := delMap inv.holds seatID,
            expiry := delMap inv.expiry seatID }
          rest
      else (inv, Except.error ("Seat " ++ seatID ++ " is not held by this order"))
/-- The activity `ConfirmBooking`: books every requested seat held by the
order; the confirmation code mirrors the Go format string on success. -/
def ConfirmBooking (inv : SeatInventory) (orderID : String)
    (seatIDs : List String) (now : Int) : SeatInventory × ConfirmBookingResult :=
  match confirmLoop orderID inv seatIDs with
  | (inv1, Except.error e) =>
    (inv1, { success := false, error := e, confirmationCode := "" })
  | (inv1, Except.ok _) =>
    (inv1, { success := true, error := "",
             confirmationCode := "FLT" ++ orderID.take 4 ++ toString (now % 10000) })
/-- Go digit test from `ValidatePayment`: the rune is between the code points
of 0 and 9. -/
def isGoDigit (c : Char) : Bool :=
  decide (Char.ofNat 48 ≤ c ∧ c ≤ Char.ofNat 57)
/-- The activity `ValidatePayment`: the payment code must have Go `len` (byte
length) 5 and contain only digit runes, both non-retryable failures; otherwise
the simulated provider decision is given by the `providerOk` oracle (Go draws
`rand.Float64() < 0.15`), a retryable failure. The order id and amount are
only logged. -/
def ValidatePayment (orderID paymentCode : String) (amount : Int)
    (providerOk : Bool) : ValidatePaymentResult :=
  if paymentCode.utf8ByteSize ≠ 5 then
    { success := false, error := "Payment code must be 5 digits",
      canRetry := false }
  else if ¬ (paymentCode.data.all isGoDigit) then
    { success := false, error := "Payment code must contain only digits",
      canRetry := false }
  else if providerOk = false then
    { success := false, error := "Payment declined by provider",
      canRetry := true }
  else
    { success := true, error := "", canRetry := false }
/-- Order status values (shared/models order.go). -/
inductive OrderStatus where
  | pending
  | seatsSelected
  | awaitingPayment
  | processing
  | confirmed
  | failed
  | cancelled
  | expired
deriving DecidableEq, Repr
/-- The terminal-state test of the workflow loop (confirmed, failed,
cancelled or expired break the loop). -/
def isTerminal : OrderStatus → Bool
  | OrderStatus.confirmed => true
  | OrderStatus.failed => true
  | OrderStatus.cancelled => true
  | OrderStatus.expired => true
  | _ => false
/-- The `models.BookingWorkflowState` record, fields as used by the workflow.
`seatHoldExpiry = 0` plays the role of the Go zero time (`IsZero`). -/
structure BookingWorkflowState where
  orderID : String
  status : OrderStatus
  seatIDs : List String
  totalAmount : Int
  seatHoldExpiry : Int
  paymentAttempts : Nat
  failureReason : String
  lastUpdated : Int
deriving DecidableEq, Repr
/-- The `models.BookingWorkflowInput` record, fields as used by the workflow. -/
structure BookingWorkflowInput where
  orderID : String
  flightID : String
  customerName : String
  customerEmail : String
  seatIDs : List String
deriving DecidableEq, Repr
/-- Workflow constants from the workflow file: 15-minute seat hold and at
most 3 payment attempts. -/
def SeatHoldTimeout : Int := 15 * 60
/-- MaxPaymentRetries = 3. -/
def MaxPaymentRetries : Nat := 3
/-- Combined state of one workflow execution: the shared inventory as seen
through this workflow, the workflow state, and whether the workflow function
has returned (after which no further signal is processed). -/
structure WorkflowEnv where
  inv : SeatInventory
  st : BookingWorkflowState
  done : Bool
/-- The signals and the timer consumed by the workflow selector. The payment
signal carries the oracle of simulated provider decisions, one per attempt. -/
inductive WorkflowSignal where
  | selectSeats (seatIDs : List String)
  | submitPayment (paymentCode : String) (providerOk : Nat → Bool)
  | cancelOrder
  | refreshTimer
  | timerFired
/-- The payment retry loop of the submit-payment handler
(`for attempt := 1; attempt <= MaxPaymentRetries; attempt++`), with `fuel`
the number of remaining loop iterations. Each iteration records the attempt
number, validates the payment, and either confirms the booking, fails the
order (releasing seats on a non-retryable or final failure), or retries.
The Go branch for a non-nil activity error is dead code (the wrapper
`validatePayment` always converts errors into retryable results), so every
iteration exits through one of these branches. -/
def paymentRetryLoop (input : BookingWorkflowInput) (paymentCode : String)
    (providerOk : Nat → Bool) (t : Int) :
    Nat → Nat → SeatInventory → BookingWorkflowState →
    SeatInventory × BookingWorkflowState
  | 0, _, inv, st => (inv, st)
  | fuel + 1, attempt, inv, st =>
    let st1 := { st with paymentAttempts := attempt, lastUpdated := t }
    let result := ValidatePayment input.orderID paymentCode st1.totalAmount
      (providerOk attempt)
    if result.success then
      let confirmed := ConfirmBooking inv input.orderID st1.seatIDs t
      if confirmed.2.success then
        (confirmed.1, { st1 with status := OrderStatus.confirmed,
                                 failureReason := "" })
      else
        (confirmed.1, { st1 with status := OrderStatus.failed,
                                 failureReason := confirmed.2.error })
    else if result.canRetry = false ∨ MaxPaymentRetries ≤ attempt then
      (ReleaseSeats input.orderID inv st1.seatIDs,
       { st1 with status := OrderStatus.failed, failureReason := result.error })
    else
      paymentRetryLoop input paymentCode providerOk t fuel (attempt + 1) inv st1
/-- Handler of the select-seats signal: release the previously held seats (if
any), attempt the new reservation, and on success install the new seats,
total, hold expiry and status; on failure record only the error message. -/
def handleSelectSeats (input : BookingWorkflowInput) (env : WorkflowEnv)
    (t : Int) (seatIDs : List String) : WorkflowEnv :=
  let inv0 := if env.st.seatIDs = [] then env.inv
              else ReleaseSeats input.orderID env.inv env.st.seatIDs
  let r := ReserveSeats inv0 input.orderID input.flightID seatIDs t
  if r.2.success then
    { env with
      inv := r.1
      st := { env.st with
              seatIDs := r.2.seatIDs
              totalAmount := r.2.totalAmount
              seatHoldExpiry := r.2.holdExpiry
              status := OrderStatus.seatsSelected
              failureReason := ""
              lastUpdated := t } }
  else
    { env with inv := r.1, st := { env.st with failureReason := r.2.error } }
/-- Handler of the submit-payment signal: rejected without seats; otherwise
the order enters processing and the payment retry loop runs to completion
inside the handler. -/
def handleSubmitPayment (input : BookingWorkflowInput) (env : WorkflowEnv)
    (t : Int) (paymentCode : String) (providerOk : Nat → Bool) : WorkflowEnv :=
  if env.st.seatIDs = [] then
    { env with st := { env.st with failureReason := "No seats selected" } }
  else
    let st0 := { env.st with status := OrderStatus.processing }
    let r := paymentRetryLoop input paymentCode providerOk t
      MaxPaymentRetries 1 env.inv st0
    { env with inv := r.1, st := r.2 }
/-- Handler of the cancel signal: the order becomes cancelled and its held
seats (if any) are released. -/
def handleCancelOrder (input : BookingWorkflowInput) (env : WorkflowEnv) :
    WorkflowEnv :=
  { inv := if env.st.seatIDs = [] then env.inv
           else ReleaseSeats input.orderID env.inv env.st.seatIDs,
    st := { env.st with status := OrderStatus.cancelled },
    done := env.done }
/-- Handler of the refresh-timer signal: only an order in seats-selected with
seats held gets a fresh 15-minute hold expiry. -/
def handleRefreshTimer (env : WorkflowEnv) (t : Int) : WorkflowEnv :=
  if env.st.seatIDs ≠ [] ∧ env.st.status = OrderStatus.seatsSelected then
    { env with st := { env.st with
                       seatHoldExpiry := t + SeatHoldTimeout
                       lastUpdated := t } }
  else env
/-- Handler of the hold-expiry timer future: only an order still in
seats-selected is expired, with its seats released. -/
def handleTimerFired (input : BookingWorkflowInput) (env : WorkflowEnv) :
    WorkflowEnv :=
  if env.st.status = OrderStatus.seatsSelected then
    { env with
      inv := ReleaseSeats input.orderID env.inv env.st.seatIDs
      st := { env.st with
              status := OrderStatus.expired
              failureReason := "Seat hold expired" } }
  else env
/-- The check at the top of the workflow loop: with a nonzero hold expiry
whose remaining duration is not positive, the order expires immediately, its
seats are released and the workflow returns. -/
def loopTopExpiryCheck (input : BookingWorkflowInput) (env : WorkflowEnv)
    (now : Int) : WorkflowEnv :=
  if env.st.seatHoldExpiry ≠ 0 ∧ env.st.seatHoldExpiry - now ≤ 0 then
    { inv := ReleaseSeats input.orderID env.inv env.st.seatIDs
      st := { env.st with
              status := OrderStatus.expired
              failureReason := "Seat hold expired" }
      done := true }
  else env
/-- Signal dispatch of the workflow selector. -/
def dispatchSignal (input : BookingWorkflowInput) (env : WorkflowEnv)
    (t : Int) : WorkflowSignal → WorkflowEnv
  | WorkflowSignal.selectSeats seatIDs => handleSelectSeats input env t seatIDs
  | WorkflowSignal.submitPayment code oracle =>
      handleSubmitPayment input env t code oracle
  | WorkflowSignal.cancelOrder => handleCancelOrder input env
  | WorkflowSignal.refreshTimer => handleRefreshTimer env t
  | WorkflowSignal.timerFired => handleTimerFired input env
/-- One iteration of the workflow loop, driven by the event delivered at
instant `t`: a completed workflow ignores everything; otherwise the selector
dispatches the event, `lastUpdated` is stamped, the loop breaks if the status
became terminal, and otherwise the next loop-top expiry check runs at the
same instant (the Go loop re-reads the clock at the top of the next
iteration, which is the instant of the event just processed). -/
def BookingWorkflowStep (input : BookingWorkflowInput) (env : WorkflowEnv)
    (ev : Int × WorkflowSignal) : WorkflowEnv :=
  if env.done then env
  else
    let env1 := dispatchSignal input env ev.1 ev.2
    let env2 := { env1 with st := { env1.st with lastUpdated := ev.1 } }
    if isTerminal env2.st.status then { env2 with done := true }
    else loopTopExpiryCheck input env2 ev.1
/-- A workflow execution: the loop consumes the timestamped events in order. -/
def BookingWorkflowRun (input : BookingWorkflowInput) (env : WorkflowEnv)
    (evs : List (Int × WorkflowSignal)) : WorkflowEnv :=
  evs.foldl (BookingWorkflowStep input) env
/-- Workflow start at instant `t0`: fresh pending state; seats provided in the
input are reserved immediately, failure of that reservation fails the order
and returns from the workflow. The first loop-top check runs before any event
(it can never fire at start: the hold expiry is either zero or in the future). -/
def BookingWorkflowStart (input : BookingWorkflowInput) (inv : SeatInventory)
    (t0 : Int) : WorkflowEnv :=
  let st : BookingWorkflowState :=
    { orderID := input.orderID, status := OrderStatus.pending, seatIDs := [],
      totalAmount := 0, seatHoldExpiry := 0, paymentAttempts := 0,
      failureReason := "", lastUpdated := t0 }
  if input.seatIDs = [] then
    loopTopExpiryCheck input { inv := inv, st := st, done := false } t0
  else
    let r := ReserveSeats inv input.orderID input.flightID input.seatIDs t0
    if r.2.success then
      loopTopExpiryCheck input
        { inv := r.1
          st := { st with
                  seatIDs := r.2.seatIDs
                  totalAmount := r.2.totalAmount
                  seatHoldExpiry := r.2.holdExpiry
                  status := OrderStatus.seatsSelected }
          done := false }
        t0
    else
      { inv := r.1
        st := { st with
                status := OrderStatus.failed
                failureReason := r.2.error }
        done := true }
/-- A seat row of the api-server `seats` table, the columns touched by the
repository statements. -/
structure DbSeat where
  status : SeatStatus
  heldUntil : Option Int
  heldByOrder : Option String
deriving DecidableEq, Repr
/-- An order row of the api-server `orders` table, the columns touched by the
repository statements. -/
structure DbOrder where
  status : OrderStatus
  reservationExpiresAt : Option Int
deriving DecidableEq, Repr
/-- The api-server relational state: the `seats` and `orders` tables keyed by
id, modelled as functions. -/
structure Database where
  seats : String → Option DbSeat
  orders : String → Option DbOrder
/-- The repository `ReleaseSeats` statement: every seat with
`held_by_order = orderID` becomes available with both hold columns nulled. -/
def repoReleaseSeats (db : Database) (orderID : String) : Database :=
  { db with
    seats := fun k =>
      match db.seats k with
      | some s =>
        if s.heldByOrder = some orderID then
          some { status := SeatStatus.available, heldUntil := none,
                 heldByOrder := none }
        else some s
      | none => none }
/-- The repository `UpdateOrderStatus` statement. -/
def repoUpdateOrderStatus (db : Database) (orderID : String)
    (status : OrderStatus) : Database :=
  { db with
    orders := fun k =>
      if k = orderID then (db.orders k).map (fun o => { o with status := status })
      else db.orders k }
/-- The per-seat UPDATE loop of the repository `HoldSeats`: the row is updated
to held only when `status = available OR held_by_order = orderID`; zero
affected rows (no such seat, or the guard fails) abort with
`ErrSeatNotAvailable`. -/
def repoHoldSeatsLoop (orderID : String) (holdUntil : Int) :
    Database → List String → Except String Database
  | db, [] => Except.ok db
  | db, seatID :: rest =>
    match db.seats seatID with
    | none => Except.error "seat not available"
    | some s =>
      if s.status = SeatStatus.available ∨ s.heldByOrder = some orderID then
        repoHoldSeatsLoop orderID holdUntil
          { db with
            seats := setMap db.seats seatID
              { status := SeatStatus.held, heldUntil := some holdUntil,
                heldByOrder := some orderID } }
          rest
      else Except.error "seat not available"
/-- The repository `HoldSeats`: inside one transaction, release every seat
previously held by the order, then hold each requested seat (committing only
if every per-seat UPDATE affected a row), then stamp the order with the new
expiry and the seats-selected status. On any failure the transaction is rolled
back, leaving the original database. There is no expired-hold check anywhere
in this path. -/
def repoHoldSeats (db : Database) (orderID : String) (seatIDs : List String)
    (now : Int) : Database × Option String :=
  let holdUntil := now + 15 * 60
  let db1 := repoReleaseSeats db orderID
  match repoHoldSeatsLoop orderID holdUntil db1 seatIDs with
  | Except.error e => (db, some e)
  | Except.ok db2 =>
    ({ db2 with
       orders := fun k =>
         if k = orderID then
           (db2.orders k).map (fun o =>
             { o with status := OrderStatus.seatsSelected,
                      reservationExpiresAt := some holdUntil })
         else db2.orders k },
     none)
/-- The service `CancelOrder` (database effects): after loading the order, the
seats held by it are released and its status is unconditionally overwritten
with cancelled; there is no terminal-state check. Workflow cancellation and
websocket broadcasts have no database effect and are not modelled. -/
def serviceCancelOrder (db : Database) (orderID : String) :
    Database × Option String :=
  match db.orders orderID with
  | none => (db, some "not found")
  | some _ =>
    let db1 := repoReleaseSeats db orderID
    (repoUpdateOrderStatus db1 orderID OrderStatus.cancelled, none)
/-- An operation on the shared activity inventory, as serialized by the
inventory mutex: every activity takes the lock for its whole body, so any
concurrent execution is equivalent to a sequence of these operations. -/
inductive InventoryOp where
  | reserve (orderID flightID : String) (seatIDs : List String) (now : Int)
  | release (orderID : String) (seatIDs : List String)
  | confirm (orderID : String) (seatIDs : List String) (now : Int)
/-- State reached after one serialized inventory operation. -/
def applyInventoryOp (inv : SeatInventory) : InventoryOp → SeatInventory
  | InventoryOp.reserve orderID flightID seatIDs now =>
    (ReserveSeats inv orderID flightID seatIDs now).1
  | InventoryOp.release orderID seatIDs => ReleaseSeats orderID inv seatIDs
  | InventoryOp.confirm orderID seatIDs now =>
    (ConfirmBooking inv orderID seatIDs now).1
/-- State reached after a serialized sequence of inventory operations. -/
def runInventory (inv : SeatInventory) (ops : List InventoryOp) : SeatInventory :=
  ops.foldl applyInventoryOp inv
/-- Observation that `orderID` holds `seatID`: the holds map records the
order as the holder. -/
def seatHeldBy (inv : SeatInventory) (orderID seatID : String) : Prop :=
  inv.holds seatID = some orderID
/-- The empty inventory. -/
def emptyInventory : SeatInventory :=
  { seats := fun _ => none, holds := fun _ => none, expiry := fun _ => none }
/-- Seat constructor for concrete scenarios. -/
def mkSeat (id flightID : String) (st : SeatStatus) (price : Int) : Seat :=
  { id := id, flightID := flightID, row := 1, column := "A",
    cls := SeatClass.economy, status := st, price := price }
/-- Per-key effect of the check phase of `ReserveSeats` on the inventory:
either the key is untouched, or it is a requested seat whose expired hold
was lazily cleared (hold entries removed, seat set back to available). -/
def checkTransition (inv inv1 : SeatInventory) (l : List String) (now : Int)
    (k : String) : Prop :=
  (inv1.seats k = inv.seats k ∧ inv1.holds k = inv.holds k ∧
   inv1.expiry k = inv.expiry k) ∨
  (k ∈ l ∧ inv1.holds k = none ∧ inv1.expiry k = none ∧
   ∃ seat expiryTime, inv.seats k = some seat ∧
     inv.expiry k = some expiryTime ∧ expiryTime < now ∧
     inv1.seats k = some { seat with status := SeatStatus.available })
/-- A one-seat inventory: seat F1-1A exists and is available. -/
def invOneSeat : SeatInventory :=
  { emptyInventory with
    seats := setMap emptyInventory.seats "F1-1A"
      (mkSeat "F1-1A" "F1" SeatStatus.available 100) }
/-- Seat F1-1A held by order OB with hold expiry 900. -/
def invHeldByB : SeatInventory :=
  { seats := setMap emptyInventory.seats "F1-1A"
      (mkSeat "F1-1A" "F1" SeatStatus.held 100),
    holds := setMap emptyInventory.holds "F1-1A" "OB",
    expiry := setMap emptyInventory.expiry "F1-1A" 900 }
/-- An api-server database in which seat s1 has an expired hold (status still
held, heldUntil 100 in the past, held by order OB) because no sweep has run,
and order OA exists in pending. -/
def dbExpiredHold : Database :=
  { seats := setMap (fun _ => none) "s1"
      { status := SeatStatus.held, heldUntil := some 100,
        heldByOrder := some "OB" },
    orders := setMap (fun _ => none) "OA"
      { status := OrderStatus.pending, reservationExpiresAt := none } }
/-- Seat s1 held by O1, seat s2 available and held by nobody. -/
def invMixedHold : SeatInventory :=
  { seats := setMap (setMap emptyInventory.seats "s2"
      (mkSeat "s2" "F1" SeatStatus.available 50)) "s1"
      (mkSeat "s1" "F1" SeatStatus.held 100),
    holds := setMap emptyInventory.holds "s1" "O1",
    expiry := setMap emptyInventory.expiry "s1" 900 }
/-- Seats s1 and s2 both held by O1. -/
def invBothHeld : SeatInventory :=
  { seats := setMap (setMap emptyInventory.seats "s2"
      (mkSeat "s2" "F1" SeatStatus.held 50)) "s1"
      (mkSeat "s1" "F1" SeatStatus.held 100),
    holds := setMap (setMap emptyInventory.holds "s2" "O1") "s1" "O1",
    expiry := setMap (setMap emptyInventory.expiry "s2" 900) "s1" 900 }
/-- The reservation attempt performed by the select-seats handler: the
previously held seats are released first, then the new seats are reserved. -/
def selectSeatsAttempt (input : BookingWorkflowInput) (env : WorkflowEnv)
    (t : Int) (seatIDs : List String) : SeatInventory × ReserveSeatsResult :=
  ReserveSeats (if env.st.seatIDs = [] then env.inv
                else ReleaseSeats input.orderID env.inv env.st.seatIDs)
    input.orderID input.flightID seatIDs t
/-- Workflow input with no pre-selected seats. -/
def inputNoSeats : BookingWorkflowInput :=
  { orderID := "O1", flightID := "F1", customerName := "Jo",
    customerEmail := "jo@x", seatIDs := [] }
/-- Workflow input pre-selecting seat F1-1A. -/
def inputWithSeat : BookingWorkflowInput :=
  { orderID := "O1", flightID := "F1", customerName := "Jo",
    customerEmail := "jo@x", seatIDs := ["F1-1A"] }
/-- State just after starting the workflow with seat F1-1A reserved at
instant 0 (hold expiry 900, status seats-selected). -/
def envAfterStart : WorkflowEnv := BookingWorkflowStart inputWithSeat invOneSeat 0
/-- Inventory in which order O1 holds s0 while order OB holds s1 and s2 with
unexpired holds. -/
def invC8 : SeatInventory :=
  { seats := setMap (setMap (setMap emptyInventory.seats "s0"
      (mkSeat "s0" "F1" SeatStatus.held 10)) "s1"
      (mkSeat "s1" "F1" SeatStatus.held 20)) "s2"
      (mkSeat "s2" "F1" SeatStatus.held 30),
    holds := setMap (setMap (setMap emptyInventory.holds "s0" "O1") "s1" "OB")
      "s2" "OB",
    expiry := setMap (setMap (setMap emptyInventory.expiry "s0" 900) "s1" 900)
      "s2" 900 }
/-- Workflow state of order O1 in seats-selected holding s0. -/
def envC8 : WorkflowEnv :=
  { inv := invC8,
    st := { orderID := "O1", status := OrderStatus.seatsSelected,
            seatIDs := ["s0"], totalAmount := 10, seatHoldExpiry := 900,
            paymentAttempts := 0, failureReason := "", lastUpdated := 0 },
    done := false }
/-- An api-server database with the confirmed order O1 whose seat s1 is
booked; `BookSeats` nulls held_until but keeps held_by_order, as in the SQL. -/
def dbConfirmed : Database :=
  { seats := setMap (fun _ => none) "s1"
      { status := SeatStatus.booked, heldUntil := none,
        heldByOrder := some "O1" },
    orders := setMap (fun _ => none) "O1"
      { status := OrderStatus.confirmed, reservationExpiresAt := none } }
theorem setMap_same {α : Type} (m : String → Option α) (k : String) (v : α) :
    setMap m k v k = some v := by
  simp [setMap]
theorem setMap_other {α : Type} (m : String → Option α) (k x : String) (v : α)
    (h : x ≠ k) : setMap m k v x = m x := by
  simp [setMap, h]
theorem delMap_same {α : Type} (m : String → Option α) (k : String) :
    delMap m k k = none := by
  simp [delMap]
theorem delMap_other {α : Type} (m : String → Option α) (k x : String)
    (h : x ≠ k) : delMap m k x = m x := by
  simp [delMap, h]
theorem reserveCheck_transition (orderID : String) (now : Int) :
    ∀ (l : List String) (inv : SeatInventory) (total : Int) (k : String),
      checkTransition inv (reserveCheck orderID now inv l total).1 l now k := by
  intro l
  induction l with
  | nil => intro inv total k; exact Or.inl ⟨rfl, rfl, rfl⟩
  | cons seatID rest ih =>
    intro inv total k
    simp only [reserveCheck]
    cases hseat : inv.seats seatID with
    | none => exact Or.inl ⟨rfl, rfl, rfl⟩
    | some seat =>
      simp only []
      by_cases hav : seat.status = SeatStatus.available
      · simp only [hav, if_true]
        rcases ih inv (total + seat.price) k with h | h
        · exact Or.inl h
        · exact Or.inr ⟨List.mem_cons_of_mem _ h.1, h.2⟩
      · simp only [if_neg hav]
        by_cases hsame : inv.holds seatID = some orderID
        · simp only [hsame, if_true]
          rcases ih inv total k with h | h
          · exact Or.inl h
          · exact Or.inr ⟨List.mem_cons_of_mem _ h.1, h.2⟩
        · simp only [if_neg hsame]
          cases hexp : inv.expiry seatID with
          | none => exact Or.inl ⟨rfl, rfl, rfl⟩
          | some expiryTime =>
            simp only []
            by_cases hlt : expiryTime < now
            · simp only [if_pos hlt]
              set inv1 : SeatInventory :=
                { inv with
                  seats := setMap inv.seats seatID
                    { seat with status := SeatStatus.available },
                  holds := delMap inv.holds seatID,
                  expiry := delMap inv.expiry seatID } with hinv1
              rcases ih inv1 (total + seat.price) k with h | h
              · by_cases hk : k = seatID
                · subst hk
                  refine Or.inr ⟨List.mem_cons_self _ _, ?_, ?_, seat,
                    expiryTime, hseat, hexp, hlt, ?_⟩
                  · rw [h.2.1]; exact delMap_same _ _
                  · rw [h.2.2]; exact delMap_same _ _
                  · rw [h.1]; exact setMap_same _ _ _
                · refine Or.inl ⟨?_, ?_, ?_⟩
                  · rw [h.1]; exact setMap_other _ _ _ _ hk
                  · rw [h.2.1]; exact delMap_other _ _ _ hk
                  · rw [h.2.2]; exact delMap_other _ _ _ hk
              · by_cases hk : k = seatID
                · subst hk
                  rcases h.2.2.2 with ⟨seat1, e1, _, hexp1, _⟩
                  simp [hinv1, delMap] at hexp1
                · refine Or.inr ⟨List.mem_cons_of_mem _ h.1, h.2.1, h.2.2.1, ?_⟩
                  rcases h.2.2.2 with ⟨seat1, e1, hs1, he1, hl1, hs2⟩
                  refine ⟨seat1, e1, ?_, ?_, hl1, hs2⟩
                  · rw [← hs1]; exact (setMap_other _ _ _ _ hk).symm
                  · rw [← he1]; exact (delMap_other _ _ _ hk).symm
            · simp only [if_neg hlt]
              exact Or.inl ⟨rfl, rfl, rfl⟩
theorem reserveCheck_holds_mono (orderID : String) (now : Int) (l : List String)
    (inv : SeatInventory) (total : Int) (k ord : String)
    (h : (reserveCheck orderID now inv l total).1.holds k = some ord) :
    inv.holds k = some ord := by
  rcases reserveCheck_transition orderID now l inv total k with ht | ht
  · rw [← ht.2.1]; exact h
  · rw [ht.2.1] at h; exact Option.noConfusion h
theorem reserveCheck_seats_isSome (orderID : String) (now : Int)
    (l : List String) (inv : SeatInventory) (total : Int) (k : String)
    (h : (inv.seats k).isSome = true) :
    ((reserveCheck orderID now inv l total).1.seats k).isSome = true := by
  rcases reserveCheck_transition orderID now l inv total k with ht | ht
  · rw [ht.1]; exact h
  · rcases ht.2.2.2 with ⟨seat, e, _, _, _, hs⟩
    rw [hs]; rfl
theorem reserveCheck_untouched_of_not_mem (orderID : String) (now : Int)
    (l : List String) (inv : SeatInventory) (total : Int) (k : String)
    (h : k ∉ l) :
    (reserveCheck orderID now inv l total).1.seats k = inv.seats k ∧
    (reserveCheck orderID now inv l total).1.holds k = inv.holds k ∧
    (reserveCheck orderID now inv l total).1.expiry k = inv.expiry k := by
  rcases reserveCheck_transition orderID now l inv total k with ht | ht
  · exact ht
  · exact absurd ht.1 h
theorem reserveCheck_untouched_future (orderID : String) (now : Int)
    (l : List String) (inv : SeatInventory) (total : Int) (k : String)
    (t : Int) (he : inv.expiry k = some t) (hle : now ≤ t) :
    (reserveCheck orderID now inv l total).1.seats k = inv.seats k ∧
    (reserveCheck orderID now inv l total).1.holds k = inv.holds k ∧
    (reserveCheck orderID now inv l total).1.expiry k = inv.expiry k := by
  rcases reserveCheck_transition orderID now l inv total k with ht | ht
  · exact ht
  · rcases ht.2.2.2 with ⟨seat, e, _, he1, hlt, _⟩
    rw [he] at he1
    cases he1
    exact absurd hlt (not_lt.mpr hle)
theorem reserveCheck_untouched_noExpiry (orderID : String) (now : Int)
    (l : List String) (inv : SeatInventory) (total : Int) (k : String)
    (he : inv.expiry k = none) :
    (reserveCheck orderID now inv l total).1.seats k = inv.seats k ∧
    (reserveCheck orderID now inv l total).1.holds k = inv.holds k ∧
    (reserveCheck orderID now inv l total).1.expiry k = inv.expiry k := by
  rcases reserveCheck_transition orderID now l inv total k with ht | ht
  · exact ht
  · rcases ht.2.2.2 with ⟨seat, e, _, he1, _, _⟩
    rw [he] at he1
    exact Option.noConfusion he1
theorem reserveCheck_ok_seats (orderID : String) (now : Int) :
    ∀ (l : List String) (inv : SeatInventory) (total tot : Int),
      (reserveCheck orderID now inv l total).2 = Except.ok tot →
      ∀ s ∈ l, ((reserveCheck orderID now inv l total).1.seats s).isSome = true := by
  intro l
  induction l with
  | nil => intro inv total tot _ s hs; exact absurd hs (List.not_mem_nil s)
  | cons seatID rest ih =>
    intro inv total tot hok s hs
    simp only [reserveCheck] at hok ⊢
    cases hseat : inv.seats seatID with
    | none => rw [hseat] at hok; exact Except.noConfusion hok
    | some seat =>
      rw [hseat] at hok
      simp only [] at hok ⊢
      by_cases hav : seat.status = SeatStatus.available
      · simp only [if_pos hav] at hok ⊢
        rcases List.mem_cons.mp hs with hsh | hsr
        · subst hsh
          exact reserveCheck_seats_isSome orderID now rest inv (total + seat.price)
            s (by rw [hseat]; rfl)
        · exact ih inv (total + seat.price) tot hok s hsr
      · simp only [if_neg hav] at hok ⊢
        by_cases hsame : inv.holds seatID = some orderID
        · simp only [if_pos hsame] at hok ⊢
          rcases List.mem_cons.mp hs with hsh | hsr
          · subst hsh
            exact reserveCheck_seats_isSome orderID now rest inv total s
              (by rw [hseat]; rfl)
          · exact ih inv total tot hok s hsr
        · simp only [if_neg hsame] at hok ⊢
          cases hexp : inv.expiry seatID with
          | none => rw [hexp] at hok; exact Except.noConfusion hok
          | some expiryTime =>
            rw [hexp] at hok
            simp only [] at hok ⊢
            by_cases hlt : expiryTime < now
            · simp only [if_pos hlt] at hok ⊢
              rcases List.mem_cons.mp hs with hsh | hsr
              · subst hsh
                refine reserveCheck_seats_isSome orderID now rest _
                  (total + seat.price) s ?_
                show (setMap inv.seats s
                  { seat with status := SeatStatus.available } s).isSome = true
                rw [setMap_same]; rfl
              · exact ih _ (total + seat.price) tot hok s hsr
            · simp only [if_neg hlt] at hok
              exact Except.noConfusion hok
theorem holdSeatsAll_frame (orderID : String) (holdExpiry : Int) :
    ∀ (l : List String) (inv : SeatInventory) (k : String), k ∉ l →
      (holdSeatsAll orderID holdExpiry inv l).seats k = inv.seats k ∧
      (holdSeatsAll orderID holdExpiry inv l).holds k = inv.holds k ∧
      (holdSeatsAll orderID holdExpiry inv l).expiry k = inv.expiry k := by
  intro l
  induction l with
  | nil => intro inv k _; exact ⟨rfl, rfl, rfl⟩
  | cons seatID rest ih =>
    intro inv k hk
    have hk1 : k ≠ seatID := fun h => hk (h ▸ List.mem_cons_self _ _)
    have hk2 : k ∉ rest := fun h => hk (List.mem_cons_of_mem _ h)
    simp only [holdSeatsAll]
    cases hseat : inv.seats seatID with
    | none => exact ih inv k hk2
    | some seat =>
      rcases ih _ k hk2 with ⟨h1, h2, h3⟩
      refine ⟨?_, ?_, ?_⟩
      · rw [h1]; exact setMap_other _ _ _ _ hk1
      · rw [h2]; exact setMap_other _ _ _ _ hk1
      · rw [h3]; exact setMap_other _ _ _ _ hk1
theorem holdSeatsAll_seats_isSome (orderID : String) (holdExpiry : Int) :
    ∀ (l : List String) (inv : SeatInventory) (k : String),
      (inv.seats k).isSome = true →
      ((holdSeatsAll orderID holdExpiry inv l).seats k).isSome = true := by
  intro l
  induction l with
  | nil => intro inv k h; exact h
  | cons seatID rest ih =>
    intro inv k h
    simp only [holdSeatsAll]
    cases hseat : inv.seats seatID with
    | none => exact ih inv k h
    | some seat =>
      refine ih _ k ?_
      show (setMap inv.seats seatID
        { seat with status := SeatStatus.held } k).isSome = true
      by_cases hk : k = seatID
      · subst hk; rw [setMap_same]; rfl
      · rw [setMap_other _ _ _ _ hk]; exact h
theorem holdSeatsAll_sets (orderID : String) (holdExpiry : Int) :
    ∀ (l : List String) (inv : SeatInventory) (s : String), s ∈ l →
      (inv.seats s).isSome = true →
      (holdSeatsAll orderID holdExpiry inv l).holds s = some orderID ∧
      (holdSeatsAll orderID holdExpiry inv l).expiry s = some holdExpiry ∧
      ∃ seat, (holdSeatsAll orderID holdExpiry inv l).seats s = some seat ∧
        seat.status = SeatStatus.held := by
  intro l
  induction l with
  | nil => intro inv s hs; exact absurd hs (List.not_mem_nil s)
  | cons seatID rest ih =>
    intro inv s hs hsome
    simp only [holdSeatsAll]
    cases hseat : inv.seats seatID with
    | none =>
      rcases List.mem_cons.mp hs with hsh | hsr
      · subst hsh; rw [hseat] at hsome; exact Bool.noConfusion hsome
      · exact ih inv s hsr hsome
    | some seat =>
      simp only []
      by_cases hsr : s ∈ rest
      · refine ih _ s hsr ?_
        show (setMap inv.seats seatID
          { seat with status := SeatStatus.held } s).isSome = true
        by_cases hk : s = seatID
        · subst hk; rw [setMap_same]; rfl
        · rw [setMap_other _ _ _ _ hk]; exact hsome
      · have hsh : s = seatID := by
          rcases List.mem_cons.mp hs with h | h
          · exact h
          · exact absurd h hsr
        subst hsh
        have hfr := holdSeatsAll_frame orderID holdExpiry rest
          { inv with
            seats := setMap inv.seats s { seat with status := SeatStatus.held },
            holds := setMap inv.holds s orderID,
            expiry := setMap inv.expiry s holdExpiry } s hsr
        refine ⟨?_, ?_, ?_⟩
        · rw [hfr.2.1]; exact setMap_same _ _ _
        · rw [hfr.2.2]; exact setMap_same _ _ _
        · refine ⟨{ seat with status := SeatStatus.held }, ?_, rfl⟩
          rw [hfr.1]; exact setMap_same _ _ _
theorem releaseSeats_holds_mono (orderID : String) :
    ∀ (l : List String) (inv : SeatInventory) (k ord : String),
      (ReleaseSeats orderID inv l).holds k = some ord →
      inv.holds k = some ord := by
  intro l
  induction l with
  | nil => intro inv k ord h; exact h
  | cons seatID rest ih =>
    intro inv k ord h
    simp only [ReleaseSeats] at h
    cases hseat : inv.seats seatID with
    | none => rw [hseat] at h; exact ih inv k ord h
    | some seat =>
      rw [hseat] at h
      simp only [] at h
      by_cases hheld : inv.holds seatID = some orderID
      · rw [if_pos hheld] at h
        have h1 : delMap inv.holds seatID k = some ord := ih _ k ord h
        by_cases hk : k = seatID
        · subst hk; rw [delMap_same] at h1; exact Option.noConfusion h1
        · rw [delMap_other _ _ _ hk] at h1; exact h1
      · rw [if_neg hheld] at h; exact ih inv k ord h
theorem releaseSeats_seats_isSome (orderID : String) :
    ∀ (l : List String) (inv : SeatInventory) (k : String),
      (inv.seats k).isSome = true →
      ((ReleaseSeats orderID inv l).seats k).isSome = true := by
  intro l
  induction l with
  | nil => intro inv k h; exact h
  | cons seatID rest ih =>
    intro inv k h
    simp only [ReleaseSeats]
    cases hseat : inv.seats seatID with
    | none => exact ih inv k h
    | some seat =>
      simp only []
      by_cases hheld : inv.holds seatID = some orderID
      · rw [if_pos hheld]
        refine ih _ k ?_
        show (setMap inv.seats seatID
          { seat with status := SeatStatus.available } k).isSome = true
        by_cases hk : k = seatID
        · subst hk; rw [setMap_same]; rfl
        · rw [setMap_other _ _ _ _ hk]; exact h
      · rw [if_neg hheld]; exact ih inv k h
theorem releaseSeats_clears (orderID : String) :
    ∀ (l : List String) (inv : SeatInventory) (s : String), s ∈ l →
      (inv.seats s).isSome = true →
      (ReleaseSeats orderID inv l).holds s ≠ some orderID := by
  intro l
  induction l with
  | nil => intro inv s hs; exact absurd hs (List.not_mem_nil s)
  | cons seatID rest ih =>
    intro inv s hs hsome h
    simp only [ReleaseSeats] at h
    cases hseat : inv.seats seatID with
    | none =>
      rw [hseat] at h
      rcases List.mem_cons.mp hs with hsh | hsr
      · subst hsh; rw [hseat] at hsome; exact Bool.noConfusion hsome
      · exact ih inv s hsr hsome h
    | some seat =>
      rw [hseat] at h
      simp only [] at h
      by_cases hheld : inv.holds seatID = some orderID
      · rw [if_pos hheld] at h
        by_cases hk : s = seatID
        · subst hk
          have h1 : delMap inv.holds s s = some orderID :=
            releaseSeats_holds_mono orderID rest _ s orderID h
          rw [delMap_same] at h1
          exact Option.noConfusion h1
        · have hsr : s ∈ rest := by
            rcases List.mem_cons.mp hs with h2 | h2
            · exact absurd h2 hk
            · exact h2
          refine ih _ s hsr ?_ h
          show (setMap inv.seats seatID
            { seat with status := SeatStatus.available } s).isSome = true
          rw [setMap_other _ _ _ _ hk]; exact hsome
      · rw [if_neg hheld] at h
        by_cases hk : s = seatID
        · subst hk
          exact hheld (releaseSeats_holds_mono orderID rest inv s orderID h)
        · have hsr : s ∈ rest := by
            rcases List.mem_cons.mp hs with h2 | h2
            · exact absurd h2 hk
            · exact h2
          exact ih inv s hsr hsome h
theorem confirmLoop_frame (orderID : String) :
    ∀ (l : List String) (inv : SeatInventory) (k : String), k ∉ l →
      (confirmLoop orderID inv l).1.seats k = inv.seats k ∧
      (confirmLoop orderID inv l).1.holds k = inv.holds k ∧
      (confirmLoop orderID inv l).1.expiry k = inv.expiry k := by
  intro l
  induction l with
  | nil => intro inv k _; exact ⟨rfl, rfl, rfl⟩
  | cons seatID rest ih =>
    intro inv k hk
    have hk1 : k ≠ seatID := fun h => hk (h ▸ List.mem_cons_self _ _)
    have hk2 : k ∉ rest := fun h => hk (List.mem_cons_of_mem _ h)
    simp only [confirmLoop]
    cases hseat : inv.seats seatID with
    | none => exact ⟨rfl, rfl, rfl⟩
    | some seat =>
      simp only []
      by_cases hheld : inv.holds seatID = some orderID
      · rw [if_pos hheld]
        rcases ih { inv with
            seats := setMap inv.seats seatID
              { seat with status := SeatStatus.booked },
            holds := delMap inv.holds seatID,
            expiry := delMap inv.expiry seatID } k hk2 with ⟨h1, h2, h3⟩
        refine ⟨?_, ?_, ?_⟩
        · rw [h1]; exact setMap_other _ _ _ _ hk1
        · rw [h2]; exact delMap_other _ _ _ hk1
        · rw [h3]; exact delMap_other _ _ _ hk1
      · rw [if_neg hheld]; exact ⟨rfl, rfl, rfl⟩
theorem confirmLoop_ok_iff (orderID : String) :
    ∀ (l : List String) (inv : SeatInventory), l.Nodup →
      ((confirmLoop orderID inv l).2 = Except.ok () ↔
        ∀ s ∈ l, inv.holds s = some orderID ∧ (inv.seats s).isSome = true) := by
  intro l
  induction l with
  | nil =>
    intro inv _
    constructor
    · intro _ s hs; exact absurd hs (List.not_mem_nil s)
    · intro _; rfl
  | cons seatID rest ih =>
    intro inv hnd
    rcases List.nodup_cons.mp hnd with ⟨hni, hndr⟩
    simp only [confirmLoop]
    cases hseat : inv.seats seatID with
    | none =>
      constructor
      · intro h; exact Except.noConfusion h
      · intro h
        rcases h seatID (List.mem_cons_self _ _) with ⟨_, hsome⟩
        rw [hseat] at hsome
        exact Bool.noConfusion hsome
    | some seat =>
      simp only []
      by_cases hheld : inv.holds seatID = some orderID
      · rw [if_pos hheld]
        set inv1 : SeatInventory :=
          { inv with
            seats := setMap inv.seats seatID
              { seat with status := SeatStatus.booked },
            holds := delMap inv.holds seatID,
            expiry := delMap inv.expiry seatID } with hinv1
        have htrans : ∀ s ∈ rest,
            (inv1.holds s = some orderID ∧ (inv1.seats s).isSome = true) ↔
            (inv.holds s = some orderID ∧ (inv.seats s).isSome = true) := by
          intro s hsr
          have hks : s ≠ seatID := fun h => hni (h ▸ hsr)
          rw [hinv1]
          constructor
          · intro hcl
            refine ⟨?_, ?_⟩
            · have := hcl.1
              show inv.holds s = some orderID
              rw [← delMap_other inv.holds seatID s hks]; exact this
            · have := hcl.2
              show (inv.seats s).isSome = true
              rw [← setMap_other inv.seats seatID s
                { seat with status := SeatStatus.booked } hks]
              exact this
          · intro hcl
            refine ⟨?_, ?_⟩
            · show delMap inv.holds seatID s = some orderID
              rw [delMap_other _ _ _ hks]; exact hcl.1
            · show (setMap inv.seats seatID
                { seat with status := SeatStatus.booked } s).isSome = true
              rw [setMap_other _ _ _ _ hks]; exact hcl.2
        constructor
        · intro hok s hs
          rcases List.mem_cons.mp hs with hsh | hsr
          · subst hsh; exact ⟨hheld, by rw [hseat]; rfl⟩
          · exact (htrans s hsr).mp (((ih inv1 hndr).mp hok) s hsr)
        · intro hall
          refine (ih inv1 hndr).mpr ?_
          intro s hsr
          exact (htrans s hsr).mpr (hall s (List.mem_cons_of_mem _ hsr))
      · rw [if_neg hheld]
        constructor
        · intro h; exact Except.noConfusion h
        · intro h
          exact absurd (h seatID (List.mem_cons_self _ _)).1 hheld
theorem confirmLoop_books (orderID : String) :
    ∀ (l : List String) (inv : SeatInventory), l.Nodup →
      (confirmLoop orderID inv l).2 = Except.ok () →
      ∀ s ∈ l, (confirmLoop orderID inv l).1.holds s = none ∧
        ∃ seat, (confirmLoop orderID inv l).1.seats s = some seat ∧
          seat.status = SeatStatus.booked := by
  intro l
  induction l with
  | nil => intro inv _ _ s hs; exact absurd hs (List.not_mem_nil s)
  | cons seatID rest ih =>
    intro inv hnd hok s hs
    rcases List.nodup_cons.mp hnd with ⟨hni, hndr⟩
    simp only [confirmLoop] at hok ⊢
    cases hseat : inv.seats seatID with
    | none => rw [hseat] at hok; exact Except.noConfusion hok
    | some seat =>
      rw [hseat] at hok
      simp only [] at hok ⊢
      by_cases hheld : inv.holds seatID = some orderID
      · rw [if_pos hheld] at hok ⊢
        rcases List.mem_cons.mp hs with hsh | hsr
        · subst hsh
          rcases confirmLoop_frame orderID rest
            { inv with
              seats := setMap inv.seats s
                { seat with status := SeatStatus.booked },
              holds := delMap inv.holds s,
              expiry := delMap inv.expiry s } s hni with ⟨h1, h2, _⟩
          refine ⟨?_, { seat with status := SeatStatus.booked }, ?_, rfl⟩
          · rw [h2]; exact delMap_same _ _
          · rw [h1]; exact setMap_same _ _ _
        · exact ih _ hndr hok s hsr
      · rw [if_neg hheld] at hok
        exact Except.noConfusion hok
theorem step_of_done (input : BookingWorkflowInput) (env : WorkflowEnv)
    (ev : Int × WorkflowSignal) (h : env.done = true) :
    BookingWorkflowStep input env ev = env := by
  simp [BookingWorkflowStep, h]
theorem run_of_done (input : BookingWorkflowInput) (env : WorkflowEnv)
    (evs : List (Int × WorkflowSignal)) (h : env.done = true) :
    BookingWorkflowRun input env evs = env := by
  induction evs with
  | nil => rfl
  | cons ev rest ih =>
    show BookingWorkflowRun input (BookingWorkflowStep input env ev) rest = env
    rw [step_of_done input env ev h]
    exact ih
theorem wrap_terminal_done (input : BookingWorkflowInput) (env2 : WorkflowEnv)
    (t : Int)
    (h : isTerminal (if isTerminal env2.st.status
        then { env2 with done := true }
        else loopTopExpiryCheck input env2 t).st.status = true) :
    (if isTerminal env2.st.status
        then { env2 with done := true }
        else loopTopExpiryCheck input env2 t).done = true := by
  by_cases ht : isTerminal env2.st.status = true
  · rw [if_pos ht]
  · rw [if_neg ht] at h ⊢
    unfold loopTopExpiryCheck at h ⊢
    by_cases hc : env2.st.seatHoldExpiry ≠ 0 ∧ env2.st.seatHoldExpiry - t ≤ 0
    · rw [if_pos hc]
    · rw [if_neg hc] at h
      exact absurd h ht
theorem step_preserves_terminal_done (input : BookingWorkflowInput)
    (env : WorkflowEnv) (ev : Int × WorkflowSignal)
    (h : isTerminal env.st.status = true → env.done = true)
    (hterm : isTerminal (BookingWorkflowStep input env ev).st.status = true) :
    (BookingWorkflowStep input env ev).done = true := by
  by_cases hd : env.done = true
  · rw [step_of_done input env ev hd] at hterm ⊢
    exact h hterm
  · have hd2 : env.done = false := by
      cases hdone : env.done
      · rfl
      · exact absurd hdone hd
    unfold BookingWorkflowStep at hterm ⊢
    rw [hd2] at hterm ⊢
    simp only [Bool.false_eq_true, if_false] at hterm ⊢
    exact wrap_terminal_done input
      { inv := (dispatchSignal input env ev.1 ev.2).inv
        st := { (dispatchSignal input env ev.1 ev.2).st with lastUpdated := ev.1 }
        done := (dispatchSignal input env ev.1 ev.2).done } ev.1 hterm
theorem run_preserves_terminal_done (input : BookingWorkflowInput) :
    ∀ (evs : List (Int × WorkflowSignal)) (env : WorkflowEnv),
      (isTerminal env.st.status = true → env.done = true) →
      isTerminal (BookingWorkflowRun input env evs).st.status = true →
      (BookingWorkflowRun input env evs).done = true := by
  intro evs
  induction evs with
  | nil => intro env h hterm; exact h hterm
  | cons ev rest ih =>
    intro env h hterm
    exact ih (BookingWorkflowStep input env ev)
      (step_preserves_terminal_done input env ev h) hterm
theorem start_terminal_done (input : BookingWorkflowInput)
    (inv : SeatInventory) (t0 : Int)
    (h : isTerminal (BookingWorkflowStart input inv t0).st.status = true) :
    (BookingWorkflowStart input inv t0).done = true := by
  unfold BookingWorkflowStart at h ⊢
  by_cases hseats : input.seatIDs = []
  · rw [if_pos hseats] at h ⊢
    unfold loopTopExpiryCheck at h ⊢
    by_cases hc : (0 : Int) ≠ 0 ∧ (0 : Int) - t0 ≤ 0
    · exact absurd rfl hc.1
    · rw [if_neg hc] at h
      exact Bool.noConfusion h
  · rw [if_neg hseats] at h ⊢
    by_cases hsucc : (ReserveSeats inv input.orderID input.flightID
        input.seatIDs t0).2.success = true
    · rw [if_pos hsucc] at h ⊢
      unfold loopTopExpiryCheck at h ⊢
      by_cases hc : (ReserveSeats inv input.orderID input.flightID
          input.seatIDs t0).2.holdExpiry ≠ 0 ∧
          (ReserveSeats inv input.orderID input.flightID
          input.seatIDs t0).2.holdExpiry - t0 ≤ 0
      · rw [if_pos hc]
      · rw [if_neg hc] at h
        exact Bool.noConfusion h
    · rw [if_neg hsucc]
theorem paymentRetryLoop_attempts (input : BookingWorkflowInput)
    (code : String) (oracle : Nat → Bool) (t : Int) :
    ∀ (fuel attempt : Nat) (inv : SeatInventory) (st : BookingWorkflowState),
      st.paymentAttempts ≤ 3 → attempt + fuel ≤ 4 →
      (paymentRetryLoop input code oracle t fuel attempt inv
        st).2.paymentAttempts ≤ 3 := by
  intro fuel
  induction fuel with
  | zero => intro attempt inv st h1 _; exact h1
  | succ fuel ih =>
    intro attempt inv st h1 h2
    simp only [paymentRetryLoop]
    split
    · split
      · show attempt ≤ 3; omega
      · show attempt ≤ 3; omega
    · split
      · show attempt ≤ 3; omega
      · exact ih (attempt + 1) inv _ (by show attempt ≤ 3; omega) (by omega)
theorem dispatch_attempts (input : BookingWorkflowInput) (env : WorkflowEnv)
    (t : Int) (sig : WorkflowSignal) (h : env.st.paymentAttempts ≤ 3) :
    (dispatchSignal input env t sig).st.paymentAttempts ≤ 3 := by
  cases sig with
  | selectSeats seatIDs =>
    simp only [dispatchSignal, handleSelectSeats]
    split <;> split <;> exact h
  | submitPayment code oracle =>
    simp only [dispatchSignal, handleSubmitPayment]
    split
    · exact h
    · exact paymentRetryLoop_attempts input code oracle t MaxPaymentRetries 1
        env.inv _ h (by decide)
  | cancelOrder => exact h
  | refreshTimer =>
    simp only [dispatchSignal, handleRefreshTimer]
    split
    · exact h
    · exact h
  | timerFired =>
    simp only [dispatchSignal, handleTimerFired]
    split
    · exact h
    · exact h
theorem step_attempts (input : BookingWorkflowInput) (env : WorkflowEnv)
    (ev : Int × WorkflowSignal) (h : env.st.paymentAttempts ≤ 3) :
    (BookingWorkflowStep input env ev).st.paymentAttempts ≤ 3 := by
  unfold BookingWorkflowStep
  by_cases hd : env.done = true
  · rw [if_pos hd]; exact h
  · have hd2 : env.done = false := by
      cases hdone : env.done
      · rfl
      · exact absurd hdone hd
    rw [hd2]
    simp only [Bool.false_eq_true, if_false]
    have hdisp := dispatch_attempts input env ev.1 ev.2 h
    split
    · exact hdisp
    · unfold loopTopExpiryCheck
      split
      · exact hdisp
      · exact hdisp
theorem start_attempts (input : BookingWorkflowInput) (inv : SeatInventory)
    (t0 : Int) : (BookingWorkflowStart input inv t0).st.paymentAttempts ≤ 3 := by
  simp only [BookingWorkflowStart, loopTopExpiryCheck]
  split
  · split
    · show (0 : Nat) ≤ 3; decide
    · show (0 : Nat) ≤ 3; decide
  · split
    · split
      · show (0 : Nat) ≤ 3; decide
      · show (0 : Nat) ≤ 3; decide
    · show (0 : Nat) ≤ 3; decide
theorem run_attempts (input : BookingWorkflowInput) :
    ∀ (evs : List (Int × WorkflowSignal)) (env : WorkflowEnv),
      env.st.paymentAttempts ≤ 3 →
      (BookingWorkflowRun input env evs).st.paymentAttempts ≤ 3 := by
  intro evs
  induction evs with
  | nil => intro env h; exact h
  | cons ev rest ih =>
    intro env h
    exact ih (BookingWorkflowStep input env ev) (step_attempts input env ev h)
/-- C1: for every seat and every instant, at most one order holds that seat:
no serialized sequence of Hold, Release and Commit operations (the activities
run one at a time under the inventory mutex) can reach a state in which two
distinct orders A and B simultaneously hold the same seat; the holds map
records at most one holder per seat. -/
theorem seat_mutual_exclusion (inv0 : SeatInventory) (ops : List InventoryOp)
    (s A B : String)
    (hA : seatHeldBy (runInventory inv0 ops) A s)
    (hB : seatHeldBy (runInventory inv0 ops) B s) : A = B := by
  unfold seatHeldBy at hA hB
  rw [hA] at hB
  exact Option.some.inj hB
theorem seat_mutual_exclusion_witness :
    seatHeldBy (runInventory invOneSeat
      [InventoryOp.reserve "O1" "F1" ["F1-1A"] 0]) "O1" "F1-1A" ∧
    ("O1" : String) = "O1" := by
  have h : seatHeldBy (runInventory invOneSeat
      [InventoryOp.reserve "O1" "F1" ["F1-1A"] 0]) "O1" "F1-1A" := by
    unfold seatHeldBy
    decide
  exact ⟨h, seat_mutual_exclusion invOneSeat
    [InventoryOp.reserve "O1" "F1" ["F1-1A"] 0] "F1-1A" "O1" "O1" h h⟩
/-- C2: every call to the hold activity `ReserveSeats` is all-or-nothing: on
success every requested seat is held by the requesting order with the same
hold expiry `now + SeatHoldDuration` and seat status held; on failure no seat
is newly held by anyone (every hold present afterwards was present before). -/
theorem hold_all_or_nothing (inv : SeatInventory) (orderID flightID : String)
    (seatIDs : List String) (now : Int) :
    ((ReserveSeats inv orderID flightID seatIDs now).2.success = true →
      ∀ s ∈ seatIDs,
        (ReserveSeats inv orderID flightID seatIDs now).1.holds s = some orderID ∧
        (ReserveSeats inv orderID flightID seatIDs now).1.expiry s =
          some (now + SeatHoldDuration) ∧
        ∃ seat, (ReserveSeats inv orderID flightID seatIDs now).1.seats s =
          some seat ∧ seat.status = SeatStatus.held) ∧
    ((ReserveSeats inv orderID flightID seatIDs now).2.success = false →
      ∀ s ord,
        (ReserveSeats inv orderID flightID seatIDs now).1.holds s = some ord →
        inv.holds s = some ord) := by
  have h1 : ∀ invc resc, reserveCheck orderID now inv seatIDs 0 = (invc, resc) →
      invc = (reserveCheck orderID now inv seatIDs 0).1 := by
    intro invc resc hc; rw [hc]
  cases hc : reserveCheck orderID now inv seatIDs 0 with
  | mk inv1 res =>
    have hfst : inv1 = (reserveCheck orderID now inv seatIDs 0).1 := h1 inv1 res hc
    cases res with
    | error e =>
      simp only [ReserveSeats, hc]
      constructor
      · intro hsucc; exact Bool.noConfusion hsucc
      · intro _ s ord hh
        refine reserveCheck_holds_mono orderID now seatIDs inv 0 s ord ?_
        rw [← hfst]; exact hh
    | ok total =>
      simp only [ReserveSeats, hc]
      constructor
      · intro _ s hs
        have hsnd : (reserveCheck orderID now inv seatIDs 0).2 = Except.ok total := by
          rw [hc]
        have hex : ((reserveCheck orderID now inv seatIDs 0).1.seats s).isSome = true :=
          reserveCheck_ok_seats orderID now seatIDs inv 0 total hsnd s hs
        rw [← hfst] at hex
        exact holdSeatsAll_sets orderID (now + SeatHoldDuration) seatIDs inv1 s hs hex
      · intro hfalse; exact Bool.noConfusion hfalse
theorem hold_all_or_nothing_witness :
    (ReserveSeats invOneSeat "O1" "F1" ["F1-1A"] 0).2.success = true ∧
    (ReserveSeats invOneSeat "O1" "F1" ["F1-1A"] 0).1.holds "F1-1A" = some "O1" ∧
    (ReserveSeats invOneSeat "O1" "F1" ["F1-1A"] 0).1.expiry "F1-1A" =
      some (0 + SeatHoldDuration) := by
  have hsucc : (ReserveSeats invOneSeat "O1" "F1" ["F1-1A"] 0).2.success = true := by
    decide
  have h := (hold_all_or_nothing invOneSeat "O1" "F1" ["F1-1A"] 0).1 hsucc
    "F1-1A" (List.mem_cons_self _ _)
  exact ⟨hsucc, h.1, h.2.1⟩
/-- C10: when `ReserveSeats` returns unsuccessfully, no seat is newly held by
anyone (in particular not by the requesting order), every seat outside the
request is untouched, every seat with an unexpired or absent hold expiry is
untouched, and any seat whose hold entry changed is a requested seat whose
already-passed expiry was lazily cleared: its hold entries are removed and its
status set back to available. -/
theorem failed_hold_frame (inv : SeatInventory) (orderID flightID : String)
    (seatIDs : List String) (now : Int)
    (hfail : (ReserveSeats inv orderID flightID seatIDs now).2.success = false) :
    (∀ s ord,
      (ReserveSeats inv orderID flightID seatIDs now).1.holds s = some ord →
      inv.holds s = some ord) ∧
    (∀ s, s ∉ seatIDs →
      (ReserveSeats inv orderID flightID seatIDs now).1.seats s = inv.seats s ∧
      (ReserveSeats inv orderID flightID seatIDs now).1.holds s = inv.holds s ∧
      (ReserveSeats inv orderID flightID seatIDs now).1.expiry s = inv.expiry s) ∧
    (∀ s t, inv.expiry s = some t → now ≤ t →
      (ReserveSeats inv orderID flightID seatIDs now).1.seats s = inv.seats s ∧
      (ReserveSeats inv orderID flightID seatIDs now).1.holds s = inv.holds s ∧
      (ReserveSeats inv orderID flightID seatIDs now).1.expiry s = inv.expiry s) ∧
    (∀ s, inv.expiry s = none →
      (ReserveSeats inv orderID flightID seatIDs now).1.seats s = inv.seats s ∧
      (ReserveSeats inv orderID flightID seatIDs now).1.holds s = inv.holds s ∧
      (ReserveSeats inv orderID flightID seatIDs now).1.expiry s = inv.expiry s) ∧
    (∀ s, (ReserveSeats inv orderID flightID seatIDs now).1.holds s ≠ inv.holds s →
      s ∈ seatIDs ∧
      (ReserveSeats inv orderID flightID seatIDs now).1.holds s = none ∧
      (ReserveSeats inv orderID flightID seatIDs now).1.expiry s = none ∧
      ∃ seat t, inv.seats s = some seat ∧ inv.expiry s = some t ∧ t < now ∧
        (ReserveSeats inv orderID flightID seatIDs now).1.seats s =
          some { seat with status := SeatStatus.available }) := by
  have hres : (ReserveSeats inv orderID flightID seatIDs now).1 =
      (reserveCheck orderID now inv seatIDs 0).1 := by
    cases hc : reserveCheck orderID now inv seatIDs 0 with
    | mk inv1 res =>
      cases res with
      | error e => simp only [ReserveSeats, hc]
      | ok total =>
        exfalso
        have : (ReserveSeats inv orderID flightID seatIDs now).2.success = true := by
          simp only [ReserveSeats, hc]
        rw [this] at hfail
        exact Bool.noConfusion hfail
  rw [hres]
  refine ⟨?_, ?_, ?_, ?_, ?_⟩
  · intro s ord hh
    exact reserveCheck_holds_mono orderID now seatIDs inv 0 s ord hh
  · intro s hs
    exact reserveCheck_untouched_of_not_mem orderID now seatIDs inv 0 s hs
  · intro s t he hle
    exact reserveCheck_untouched_future orderID now seatIDs inv 0 s t he hle
  · intro s he
    exact reserveCheck_untouched_noExpiry orderID now seatIDs inv 0 s he
  · intro s hne
    rcases reserveCheck_transition orderID now seatIDs inv 0 s with ht | ht
    · exact absurd ht.2.1 hne
    · rcases ht.2.2.2 with ⟨seat, t, hs1, he1, hlt, hs2⟩
      exact ⟨ht.1, ht.2.1, ht.2.2.1, seat, t, hs1, he1, hlt, hs2⟩
theorem failed_hold_frame_witness :
    (ReserveSeats invHeldByB "O1" "F1" ["F1-1A"] 0).2.success = false ∧
    (ReserveSeats invHeldByB "O1" "F1" ["F1-1A"] 0).1.holds "F1-1A" =
      invHeldByB.holds "F1-1A" := by
  have hfail : (ReserveSeats invHeldByB "O1" "F1" ["F1-1A"] 0).2.success = false := by
    decide
  have h := (failed_hold_frame invHeldByB "O1" "F1" ["F1-1A"] 0 hfail).2.2.1
    "F1-1A" 900 (by decide) (by decide)
  exact ⟨hfail, h.2.1⟩
/-- C3 counterexample: the api-server `Repository.HoldSeats` does not treat an
expired hold as available: at instant 200, strictly after the hold expiry 100
recorded for seat s1 and with no sweep having run, a hold attempt by another
order fails with ErrSeatNotAvailable and the seat is not granted (its row is
unchanged, still held by the old order). -/
theorem repo_hold_ignores_expired_counterexample :
    (100 : Int) < 200 ∧
    (repoHoldSeats dbExpiredHold "OA" ["s1"] 200).2 = some "seat not available" ∧
    (repoHoldSeats dbExpiredHold "OA" ["s1"] 200).1.seats "s1" =
      some { status := SeatStatus.held, heldUntil := some 100,
             heldByOrder := some "OB" } := by
  decide
/-- C3 (amended): lazy expiry holds in the in-memory inventory activity
`ReserveSeats`: a seat recorded as held by one order with hold expiry `t` is
treated as available by a hold check run at any instant strictly after `t`,
even though no sweep exists, and is granted to the other requesting order.
The api-server `Repository.HoldSeats` SQL path does not implement this: a
seat whose expired hold has not been swept blocks the new hold. -/
theorem lazy_expiry_in_memory (inv : SeatInventory) (A B flightID s : String)
    (seat : Seat) (t now : Int)
    (hseat : inv.seats s = some seat) (hstat : seat.status = SeatStatus.held)
    (hhold : inv.holds s = some B) (hAB : A ≠ B)
    (hexp : inv.expiry s = some t) (hlt : t < now) :
    (ReserveSeats inv A flightID [s] now).2.success = true ∧
    (ReserveSeats inv A flightID [s] now).1.holds s = some A := by
  have hnotA : ¬ inv.holds s = some A := by
    rw [hhold]
    intro h
    exact hAB (Option.some.inj h).symm
  have hav : ¬ seat.status = SeatStatus.available := by
    rw [hstat]
    intro h
    exact SeatStatus.noConfusion h
  have hcheck : reserveCheck A now inv [s] 0 =
      ({ inv with
         seats := setMap inv.seats s { seat with status := SeatStatus.available },
         holds := delMap inv.holds s,
         expiry := delMap inv.expiry s }, Except.ok (0 + seat.price)) := by
    simp only [reserveCheck, hseat, hexp, if_neg hav, if_neg hnotA, if_pos hlt]
  constructor
  · simp only [ReserveSeats, hcheck]
  · simp only [ReserveSeats, hcheck]
    have hex : ((setMap inv.seats s
        { seat with status := SeatStatus.available }) s).isSome = true := by
      rw [setMap_same]; rfl
    exact (holdSeatsAll_sets A (now + SeatHoldDuration) [s]
      { inv with
        seats := setMap inv.seats s { seat with status := SeatStatus.available },
        holds := delMap inv.holds s,
        expiry := delMap inv.expiry s } s (List.mem_cons_self _ _) hex).1
theorem lazy_expiry_in_memory_witness :
    invHeldByB.seats "F1-1A" = some (mkSeat "F1-1A" "F1" SeatStatus.held 100) ∧
    (ReserveSeats invHeldByB "O1" "F1" ["F1-1A"] 1000).2.success = true ∧
    (ReserveSeats invHeldByB "O1" "F1" ["F1-1A"] 1000).1.holds "F1-1A" =
      some "O1" := by
  have h := lazy_expiry_in_memory invHeldByB "O1" "OB" "F1" "F1-1A"
    (mkSeat "F1-1A" "F1" SeatStatus.held 100) 900 1000
    (by decide) (by decide) (by decide) (by decide) (by decide) (by decide)
  exact ⟨by decide, h.1, h.2⟩
/-- C4 counterexample: a failed `ConfirmBooking` is not effect-free: with s1
held by O1 and s2 not held, committing [s1, s2] fails (s2 is not held by the
order), yet s1 has already been transitioned to booked by the failed commit. -/
theorem confirm_partial_booking_counterexample :
    (ConfirmBooking invMixedHold "O1" ["s1", "s2"] 0).2.success = false ∧
    (ConfirmBooking invMixedHold "O1" ["s1", "s2"] 0).2.error =
      "Seat s2 is not held by this order" ∧
    (ConfirmBooking invMixedHold "O1" ["s1", "s2"] 0).1.seats "s1" =
      some (mkSeat "s1" "F1" SeatStatus.booked 100) := by
  decide
/-- C4 (amended): for a duplicate-free request, `ConfirmBooking` succeeds
exactly when every requested seat exists and is recorded as held by the
committing order, and on success every requested seat is transitioned to
booked with its hold entry cleared. On failure the commit is not rolled back:
requested seats processed before the offending one stay booked (see the
counterexample). -/
theorem confirm_success_iff_held (inv : SeatInventory) (orderID : String)
    (seatIDs : List String) (now : Int) (hnd : seatIDs.Nodup) :
    ((ConfirmBooking inv orderID seatIDs now).2.success = true ↔
      ∀ s ∈ seatIDs, inv.holds s = some orderID ∧ (inv.seats s).isSome = true) ∧
    ((ConfirmBooking inv orderID seatIDs now).2.success = true →
      ∀ s ∈ seatIDs,
        (ConfirmBooking inv orderID seatIDs now).1.holds s = none ∧
        ∃ seat, (ConfirmBooking inv orderID seatIDs now).1.seats s = some seat ∧
          seat.status = SeatStatus.booked) := by
  cases hc : confirmLoop orderID inv seatIDs with
  | mk inv1 res =>
    cases res with
    | error e =>
      simp only [ConfirmBooking, hc]
      constructor
      · constructor
        · intro h; exact Bool.noConfusion h
        · intro hall
          have hok := (confirmLoop_ok_iff orderID seatIDs inv hnd).mpr hall
          rw [hc] at hok
          exact Except.noConfusion hok
      · intro h; exact Bool.noConfusion h
    | ok u =>
      cases u
      have hsnd : (confirmLoop orderID inv seatIDs).2 = Except.ok () := by rw [hc]
      simp only [ConfirmBooking, hc]
      constructor
      · constructor
        · intro _; exact (confirmLoop_ok_iff orderID seatIDs inv hnd).mp hsnd
        · intro _; trivial
      · intro _ s hs
        have h := confirmLoop_books orderID seatIDs inv hnd hsnd s hs
        have hfst : (confirmLoop orderID inv seatIDs).1 = inv1 := by rw [hc]
        rw [hfst] at h
        exact h
theorem confirm_success_iff_held_witness :
    (["s1", "s2"] : List String).Nodup ∧
    (ConfirmBooking invBothHeld "O1" ["s1", "s2"] 0).2.success = true := by
  have hnd : (["s1", "s2"] : List String).Nodup := by decide
  exact ⟨hnd, (confirm_success_iff_held invBothHeld "O1" ["s1", "s2"] 0 hnd).1.mpr
    (by decide)⟩
theorem step_eq_of_not_done (input : BookingWorkflowInput) (env : WorkflowEnv)
    (ev : Int × WorkflowSignal) (hd : env.done = false) :
    BookingWorkflowStep input env ev =
      (let env1 := dispatchSignal input env ev.1 ev.2
       let env2 := { env1 with st := { env1.st with lastUpdated := ev.1 } }
       if isTerminal env2.st.status then { env2 with done := true }
       else loopTopExpiryCheck input env2 ev.1) := by
  unfold BookingWorkflowStep
  rw [hd]
  simp only [Bool.false_eq_true, if_false]
theorem reserveSeats_failed_holds_mono (inv : SeatInventory)
    (orderID flightID : String) (seatIDs : List String) (now : Int)
    (s ord : String)
    (hh : (ReserveSeats inv orderID flightID seatIDs now).1.holds s = some ord) :
    (ReserveSeats inv orderID flightID seatIDs now).2.success = false →
    inv.holds s = some ord := by
  intro hfail
  cases hc : reserveCheck orderID now inv seatIDs 0 with
  | mk inv1 res =>
    cases res with
    | error e =>
      refine reserveCheck_holds_mono orderID now seatIDs inv 0 s ord ?_
      have hfst : (reserveCheck orderID now inv seatIDs 0).1 = inv1 := by rw [hc]
      rw [hfst]
      simp only [ReserveSeats, hc] at hh
      exact hh
    | ok total =>
      exfalso
      have : (ReserveSeats inv orderID flightID seatIDs now).2.success = true := by
        simp only [ReserveSeats, hc]
      rw [this] at hfail
      exact Bool.noConfusion hfail
theorem paymentRetryLoop_nonretryable (input : BookingWorkflowInput)
    (code : String) (oracle : Nat → Bool) (t : Int) (fuel attempt : Nat)
    (inv : SeatInventory) (st : BookingWorkflowState) (e : String)
    (hv : ValidatePayment input.orderID code st.totalAmount (oracle attempt) =
      { success := false, error := e, canRetry := false }) :
    paymentRetryLoop input code oracle t (fuel + 1) attempt inv st =
      (ReleaseSeats input.orderID inv st.seatIDs,
       { st with
         status := OrderStatus.failed
         paymentAttempts := attempt
         failureReason := e
         lastUpdated := t }) := by
  have hv2 : ValidatePayment input.orderID code
      ({ st with paymentAttempts := attempt, lastUpdated := t } :
        BookingWorkflowState).totalAmount (oracle attempt) =
      { success := false, error := e, canRetry := false } := hv
  simp only [paymentRetryLoop, hv2]
  simp
/-- C5 counterexample: order O1 is in seats-selected holding F1-1A with
paymentAttempts 0; submitting the malformed 4-digit code 1234 consumes an
attempt (paymentAttempts becomes 1, not 0), moves the order to failed (not
back to seats-selected), and releases the held seat. -/
theorem malformed_code_consumes_attempt_counterexample :
    envAfterStart.st.status = OrderStatus.seatsSelected ∧
    envAfterStart.st.paymentAttempts = 0 ∧
    (BookingWorkflowStep inputWithSeat envAfterStart
      (100, WorkflowSignal.submitPayment "1234"
        (fun _ => true))).st.paymentAttempts = 1 ∧
    (BookingWorkflowStep inputWithSeat envAfterStart
      (100, WorkflowSignal.submitPayment "1234"
        (fun _ => true))).st.status = OrderStatus.failed ∧
    (BookingWorkflowStep inputWithSeat envAfterStart
      (100, WorkflowSignal.submitPayment "1234"
        (fun _ => true))).st.failureReason = "Payment code must be 5 digits" ∧
    (BookingWorkflowStep inputWithSeat envAfterStart
      (100, WorkflowSignal.submitPayment "1234"
        (fun _ => true))).inv.holds "F1-1A" = none := by
  decide
/-- C5 (amended): a payment submission whose code has byte length other than
5 fails non-retryably, and the workflow consumes the attempt and fails the
order: paymentAttempts becomes 1, the status becomes failed (not
seats-selected), failureReason is set to the validation message, the workflow
completes, and the seats held by the order are released. -/
theorem nonretryable_failure_fails_order (input : BookingWorkflowInput)
    (env : WorkflowEnv) (t : Int) (code : String) (oracle : Nat → Bool)
    (hdone : env.done = false) (hseats : ¬ env.st.seatIDs = [])
    (hlen : code.utf8ByteSize ≠ 5) :
    (BookingWorkflowStep input env
      (t, WorkflowSignal.submitPayment code oracle)).st.paymentAttempts = 1 ∧
    (BookingWorkflowStep input env
      (t, WorkflowSignal.submitPayment code oracle)).st.status =
      OrderStatus.failed ∧
    (BookingWorkflowStep input env
      (t, WorkflowSignal.submitPayment code oracle)).st.failureReason =
      "Payment code must be 5 digits" ∧
    (BookingWorkflowStep input env
      (t, WorkflowSignal.submitPayment code oracle)).done = true ∧
    (∀ s ∈ env.st.seatIDs, (env.inv.seats s).isSome = true →
      (BookingWorkflowStep input env
        (t, WorkflowSignal.submitPayment code oracle)).inv.holds s ≠
        some input.orderID) := by
  have hv : ValidatePayment input.orderID code
      ({ env.st with status := OrderStatus.processing } :
        BookingWorkflowState).totalAmount (oracle 1) =
      { success := false, error := "Payment code must be 5 digits",
        canRetry := false } := by
    unfold ValidatePayment
    rw [if_pos hlen]
  have hprl := paymentRetryLoop_nonretryable input code oracle t 2 1 env.inv
    { env.st with status := OrderStatus.processing }
    "Payment code must be 5 digits" hv
  have hstep : BookingWorkflowStep input env
      (t, WorkflowSignal.submitPayment code oracle) =
      { inv := ReleaseSeats input.orderID env.inv env.st.seatIDs,
        st := { env.st with
                status := OrderStatus.failed
                paymentAttempts := 1
                failureReason := "Payment code must be 5 digits"
                lastUpdated := t },
        done := true } := by
    rw [step_eq_of_not_done input env _ hdone]
    simp only [dispatchSignal, handleSubmitPayment, if_neg hseats]
    rw [show MaxPaymentRetries = 2 + 1 from rfl, hprl]
    rfl
  rw [hstep]
  refine ⟨rfl, rfl, rfl, rfl, ?_⟩
  intro s hs hsome
  exact releaseSeats_clears input.orderID env.st.seatIDs env.inv s hs hsome
theorem nonretryable_failure_fails_order_witness :
    envAfterStart.done = false ∧
    (BookingWorkflowStep inputWithSeat envAfterStart
      (100, WorkflowSignal.submitPayment "1234"
        (fun _ => true))).st.status = OrderStatus.failed := by
  have h := nonretryable_failure_fails_order inputWithSeat envAfterStart 100
    "1234" (fun _ => true) (by decide) (by decide) (by decide)
  exact ⟨by decide, h.2.1⟩
/-- C6 counterexample: an order can reach failed with paymentAttempts 1, not
3: a malformed payment code fails the order on the first attempt. -/
theorem failed_with_one_attempt_counterexample :
    (BookingWorkflowStep inputWithSeat envAfterStart
      (100, WorkflowSignal.submitPayment "1234"
        (fun _ => true))).st.status = OrderStatus.failed ∧
    (BookingWorkflowStep inputWithSeat envAfterStart
      (100, WorkflowSignal.submitPayment "1234"
        (fun _ => true))).st.paymentAttempts = 1 ∧
    (1 : Nat) ≠ 3 := by
  decide
/-- C6 (amended): paymentAttempts never exceeds MaxPaymentRetries (3) in any
workflow execution: the retry loop writes attempt numbers 1 to 3 only. An
order that reaches failed need not have paymentAttempts 3 (see the
counterexample: a non-retryable failure leaves it at 1). -/
theorem payment_attempts_le_three (input : BookingWorkflowInput)
    (inv : SeatInventory) (t0 : Int) (evs : List (Int × WorkflowSignal)) :
    (BookingWorkflowRun input (BookingWorkflowStart input inv t0)
      evs).st.paymentAttempts ≤ 3 :=
  run_attempts input evs (BookingWorkflowStart input inv t0)
    (start_attempts input inv t0)
/-- C7 counterexample: the api-server `BookingService.CancelOrder` performs no
terminal-state check: cancelling the confirmed order O1 overwrites its status
with cancelled and releases its booked seat back to available (the seat row
still carries held_by_order after `BookSeats`), so cancelling after confirmed
does change the order. -/
theorem service_cancel_after_confirmed_counterexample :
    dbConfirmed.orders "O1" =
      some { status := OrderStatus.confirmed, reservationExpiresAt := none } ∧
    (serviceCancelOrder dbConfirmed "O1").1.orders "O1" =
      some { status := OrderStatus.cancelled, reservationExpiresAt := none } ∧
    (serviceCancelOrder dbConfirmed "O1").1.seats "s1" =
      some { status := SeatStatus.available, heldUntil := none,
             heldByOrder := none } := by
  decide
/-- C7 (amended): within the booking workflow, once an order has reached a
terminal status (confirmed, failed, cancelled or expired), the workflow has
returned and no subsequently delivered signal or timer changes anything: the
whole environment, and in particular every order field, is unchanged by any
further event sequence. The api-server CancelOrder endpoint, however, mutates
even confirmed orders (see the counterexample). -/
theorem workflow_terminal_immutable (input : BookingWorkflowInput)
    (inv : SeatInventory) (t0 : Int)
    (evs1 evs2 : List (Int × WorkflowSignal))
    (h : isTerminal (BookingWorkflowRun input
      (BookingWorkflowStart input inv t0) evs1).st.status = true) :
    BookingWorkflowRun input (BookingWorkflowRun input
      (BookingWorkflowStart input inv t0) evs1) evs2 =
    BookingWorkflowRun input (BookingWorkflowStart input inv t0) evs1 := by
  have hdone := run_preserves_terminal_done input evs1
    (BookingWorkflowStart input inv t0)
    (fun ht => start_terminal_done input inv t0 ht) h
  exact run_of_done input _ evs2 hdone
theorem workflow_terminal_immutable_witness :
    isTerminal (BookingWorkflowRun inputNoSeats
      (BookingWorkflowStart inputNoSeats invOneSeat 0)
      [(1, WorkflowSignal.cancelOrder)]).st.status = true ∧
    BookingWorkflowRun inputNoSeats (BookingWorkflowRun inputNoSeats
      (BookingWorkflowStart inputNoSeats invOneSeat 0)
      [(1, WorkflowSignal.cancelOrder)])
      [(2, WorkflowSignal.selectSeats ["F1-1A"])] =
    BookingWorkflowRun inputNoSeats
      (BookingWorkflowStart inputNoSeats invOneSeat 0)
      [(1, WorkflowSignal.cancelOrder)] := by
  have h : isTerminal (BookingWorkflowRun inputNoSeats
      (BookingWorkflowStart inputNoSeats invOneSeat 0)
      [(1, WorkflowSignal.cancelOrder)]).st.status = true := by decide
  exact ⟨h, workflow_terminal_immutable inputNoSeats invOneSeat 0
    [(1, WorkflowSignal.cancelOrder)]
    [(2, WorkflowSignal.selectSeats ["F1-1A"])] h⟩
/-- C8 counterexample: order O1 in seats-selected holding s0 re-selects
[s1, s2], both held by another order with unexpired holds. The failure sets
failureReason to the error naming only the first conflicting seat s1 (s2 is
not mentioned), and the previously held seat s0 has already been released in
the inventory, contradicting the claim that the held seats are unchanged and
that every conflicting seat is listed. -/
theorem conflict_error_first_seat_counterexample :
    invC8.holds "s1" = some "OB" ∧
    invC8.holds "s2" = some "OB" ∧
    (BookingWorkflowStep inputWithSeat envC8
      (100, WorkflowSignal.selectSeats ["s1", "s2"])).st.failureReason =
      "Seat s1 is not available" ∧
    (BookingWorkflowStep inputWithSeat envC8
      (100, WorkflowSignal.selectSeats ["s1", "s2"])).st.status =
      OrderStatus.seatsSelected ∧
    envC8.inv.holds "s0" = some "O1" ∧
    (BookingWorkflowStep inputWithSeat envC8
      (100, WorkflowSignal.selectSeats ["s1", "s2"])).inv.holds "s0" = none := by
  decide
/-- C8 (amended): when the reservation attempted by a select-seats signal
fails, the order fields status, seatIds, totalAmount, holdExpiry and
paymentAttempts are unchanged and failureReason is set to the error message
of the failed attempt (which names only the first seat that could not be
acquired, see the counterexample); however, the seats previously held by the
order have already been released in the inventory before the attempt, so none
of them is still held by the order. -/
theorem select_failure_order_fields_unchanged (input : BookingWorkflowInput)
    (env : WorkflowEnv) (t : Int) (newSeats : List String)
    (hdone : env.done = false)
    (hterm : isTerminal env.st.status = false)
    (hexp : env.st.seatHoldExpiry = 0 ∨ t < env.st.seatHoldExpiry)
    (hfail : (selectSeatsAttempt input env t newSeats).2.success = false) :
    (BookingWorkflowStep input env
      (t, WorkflowSignal.selectSeats newSeats)).st.status = env.st.status ∧
    (BookingWorkflowStep input env
      (t, WorkflowSignal.selectSeats newSeats)).st.seatIDs = env.st.seatIDs ∧
    (BookingWorkflowStep input env
      (t, WorkflowSignal.selectSeats newSeats)).st.totalAmount =
      env.st.totalAmount ∧
    (BookingWorkflowStep input env
      (t, WorkflowSignal.selectSeats newSeats)).st.seatHoldExpiry =
      env.st.seatHoldExpiry ∧
    (BookingWorkflowStep input env
      (t, WorkflowSignal.selectSeats newSeats)).st.paymentAttempts =
      env.st.paymentAttempts ∧
    (BookingWorkflowStep input env
      (t, WorkflowSignal.selectSeats newSeats)).st.failureReason =
      (selectSeatsAttempt input env t newSeats).2.error ∧
    (∀ s ∈ env.st.seatIDs, (env.inv.seats s).isSome = true →
      (BookingWorkflowStep input env
        (t, WorkflowSignal.selectSeats newSeats)).inv.holds s ≠
        some input.orderID) := by
  have hsuc : ¬ (ReserveSeats (if env.st.seatIDs = [] then env.inv
      else ReleaseSeats input.orderID env.inv env.st.seatIDs)
      input.orderID input.flightID newSeats t).2.success = true := by
    unfold selectSeatsAttempt at hfail
    rw [hfail]
    exact Bool.noConfusion
  have hcond : ¬ (env.st.seatHoldExpiry ≠ 0 ∧
      env.st.seatHoldExpiry - t ≤ 0) := by
    rcases hexp with h0 | hlt
    · intro hc; exact hc.1 h0
    · intro hc; omega
  have hstep : BookingWorkflowStep input env
      (t, WorkflowSignal.selectSeats newSeats) =
      { inv := (selectSeatsAttempt input env t newSeats).1,
        st := { env.st with
                failureReason := (selectSeatsAttempt input env t newSeats).2.error
                lastUpdated := t },
        done := env.done } := by
    rw [step_eq_of_not_done input env _ hdone]
    simp only [dispatchSignal, handleSelectSeats, if_neg hsuc]
    rw [if_neg (show ¬ isTerminal env.st.status = true by rw [hterm]; exact
      Bool.noConfusion)]
    unfold loopTopExpiryCheck
    rw [if_neg hcond]
    rfl
  rw [hstep]
  refine ⟨rfl, rfl, rfl, rfl, rfl, rfl, ?_⟩
  intro s hs hsome hheld
  by_cases hempty : env.st.seatIDs = []
  · rw [hempty] at hs
    exact absurd hs (List.not_mem_nil s)
  · have hfail2 : (ReserveSeats
        (ReleaseSeats input.orderID env.inv env.st.seatIDs)
        input.orderID input.flightID newSeats t).2.success = false := by
      unfold selectSeatsAttempt at hfail
      rw [if_neg hempty] at hfail
      exact hfail
    have hheld2 : (ReserveSeats
        (ReleaseSeats input.orderID env.inv env.st.seatIDs)
        input.orderID input.flightID newSeats t).1.holds s =
        some input.orderID := by
      unfold selectSeatsAttempt at hheld
      rw [if_neg hempty] at hheld
      exact hheld
    have hmono := reserveSeats_failed_holds_mono
      (ReleaseSeats input.orderID env.inv env.st.seatIDs)
      input.orderID input.flightID newSeats t s input.orderID hheld2 hfail2
    exact releaseSeats_clears input.orderID env.st.seatIDs env.inv s hs
      hsome hmono
theorem select_failure_order_fields_unchanged_witness :
    (selectSeatsAttempt inputWithSeat envC8 100 ["s1", "s2"]).2.success =
      false ∧
    (BookingWorkflowStep inputWithSeat envC8
      (100, WorkflowSignal.selectSeats ["s1", "s2"])).st.totalAmount =
      envC8.st.totalAmount := by
  have h := select_failure_order_fields_unchanged inputWithSeat envC8 100
    ["s1", "s2"] (by decide) (by decide) (Or.inr (by decide)) (by decide)
  exact ⟨by decide, h.2.2.1⟩
/-- C9 counterexample: when the hold-expiry timer fires for an order in
seats-selected, the failure reason written by the workflow is the string
Seat hold expired, not the string hold expired stated by the claim. -/
theorem timer_failure_reason_counterexample :
    (BookingWorkflowStep inputWithSeat envAfterStart
      (900, WorkflowSignal.timerFired)).st.status = OrderStatus.expired ∧
    (BookingWorkflowStep inputWithSeat envAfterStart
      (900, WorkflowSignal.timerFired)).st.failureReason =
      "Seat hold expired" ∧
    ¬ (BookingWorkflowStep inputWithSeat envAfterStart
      (900, WorkflowSignal.timerFired)).st.failureReason = "hold expired" := by
  decide
/-- C9 (amended): when the hold-expiry timer fires at the stored hold expiry
for an order still in seats-selected or processing, the order releases its
seats and transitions to expired with failureReason set to the string
Seat hold expired (an order in seats-selected expires in the timer handler; in
processing the handler is a no-op and the loop-top check expires it in the
same step); an order in any other status with no active hold expiry is
unchanged by the timer apart from lastUpdated. -/
theorem timer_expires_held_order (input : BookingWorkflowInput)
    (env : WorkflowEnv) (t : Int) (hdone : env.done = false) :
    ((t = env.st.seatHoldExpiry ∧ env.st.seatHoldExpiry ≠ 0 ∧
      (env.st.status = OrderStatus.seatsSelected ∨
        env.st.status = OrderStatus.processing) ∧
      (∀ s ∈ env.st.seatIDs, (env.inv.seats s).isSome = true)) →
      (BookingWorkflowStep input env
        (t, WorkflowSignal.timerFired)).st.status = OrderStatus.expired ∧
      (BookingWorkflowStep input env
        (t, WorkflowSignal.timerFired)).st.failureReason =
        "Seat hold expired" ∧
      (BookingWorkflowStep input env
        (t, WorkflowSignal.timerFired)).done = true ∧
      (∀ s ∈ env.st.seatIDs,
        (BookingWorkflowStep input env
          (t, WorkflowSignal.timerFired)).inv.holds s ≠
          some input.orderID)) ∧
    ((env.st.status ≠ OrderStatus.seatsSelected ∧
      env.st.seatHoldExpiry = 0) →
      (BookingWorkflowStep input env (t, WorkflowSignal.timerFired)).st =
        { env.st with lastUpdated := t }) := by
  constructor
  · rintro ⟨ht, hnz, hstat, hex⟩
    rcases hstat with hsel | hproc
    · have hstep : BookingWorkflowStep input env
          (t, WorkflowSignal.timerFired) =
          { inv := ReleaseSeats input.orderID env.inv env.st.seatIDs,
            st := { env.st with
                    status := OrderStatus.expired
                    failureReason := "Seat hold expired"
                    lastUpdated := t },
            done := true } := by
        rw [step_eq_of_not_done input env _ hdone]
        simp only [dispatchSignal, handleTimerFired, if_pos hsel]
        rfl
      rw [hstep]
      refine ⟨rfl, rfl, rfl, ?_⟩
      intro s hs
      exact releaseSeats_clears input.orderID env.st.seatIDs env.inv s hs
        (hex s hs)
    · have hne : ¬ env.st.status = OrderStatus.seatsSelected := by
        rw [hproc]
        exact fun h => OrderStatus.noConfusion h
      have hT : ¬ isTerminal env.st.status = true := by
        rw [hproc]
        exact fun h => Bool.noConfusion h
      have hcond : env.st.seatHoldExpiry ≠ 0 ∧
          env.st.seatHoldExpiry - t ≤ 0 := ⟨hnz, by omega⟩
      have hstep : BookingWorkflowStep input env
          (t, WorkflowSignal.timerFired) =
          { inv := ReleaseSeats input.orderID env.inv env.st.seatIDs,
            st := { env.st with
                    status := OrderStatus.expired
                    failureReason := "Seat hold expired"
                    lastUpdated := t },
            done := true } := by
        rw [step_eq_of_not_done input env _ hdone]
        simp only [dispatchSignal, handleTimerFired, if_neg hne]
        rw [if_neg hT]
        unfold loopTopExpiryCheck
        rw [if_pos hcond]
      rw [hstep]
      refine ⟨rfl, rfl, rfl, ?_⟩
      intro s hs
      exact releaseSeats_clears input.orderID env.st.seatIDs env.inv s hs
        (hex s hs)
  · rintro ⟨hne, h0⟩
    have hcond : ¬ (env.st.seatHoldExpiry ≠ 0 ∧
        env.st.seatHoldExpiry - t ≤ 0) := fun hc => hc.1 h0
    rw [step_eq_of_not_done input env _ hdone]
    simp only [dispatchSignal, handleTimerFired, if_neg hne]
    by_cases hT : isTerminal env.st.status = true
    · rw [if_pos hT]
    · rw [if_neg hT]
      unfold loopTopExpiryCheck
      rw [if_neg hcond]
theorem timer_expires_held_order_witness :
    envAfterStart.st.status = OrderStatus.seatsSelected ∧
    envAfterStart.st.seatHoldExpiry = 900 ∧
    (BookingWorkflowStep inputWithSeat envAfterStart
      (900, WorkflowSignal.timerFired)).st.status = OrderStatus.expired := by
  have h := (timer_expires_held_order inputWithSeat envAfterStart 900
    (by decide)).1 ⟨by decide, by decide, Or.inl (by decide), by decide⟩
  exact ⟨by decide, by decide, h.1⟩
